import Mathlib

/-!
Verification of the Tutorial-7 Flask API (`src/app.py`): input validators,
JWT auth middleware, registration endpoints and product CRUD, shallowly
embedded in Lean 4.  Strings are Lean `String`s (Python `str.strip` is
`pyStrip`, `str.lower` is `pyLower`, `len` is `String.length`); times are
seconds as `Nat`; the Mongo collections are Lean lists.
-/

namespace Tutorial7

/-! ## Python string primitives -/

/-- Remove leading and trailing whitespace of a character list. -/
def stripList (l : List Char) : List Char :=
  ((l.dropWhile Char.isWhitespace).reverse.dropWhile Char.isWhitespace).reverse

/-- Python `str.strip()`: remove leading and trailing whitespace. -/
def pyStrip (s : String) : String :=
  ⟨stripList s.toList⟩

/-- Python `str.lower()` (ASCII range, which covers every input the
validators compare against). -/
def pyLower (s : String) : String :=
  ⟨s.toList.map Char.toLower⟩

/-! ## Email pattern

`app.py` (lines 122 and 146) matches emails against the regex
`^[a-zA-Z0-9._%+-]+@[a-zA-Z0-9.-]+\.[a-zA-Z]{2,}$` via `re.match`.
We embed the regex as a backtracking matcher over the character list.
-/

/-- Character class `[a-zA-Z0-9._%+-]` of the regex's local part. -/
def isLocalChar (c : Char) : Bool :=
  c.isAlpha || c.isDigit || c = '.' || c = '_' || c = '%' || c = '+' || c = '-'

/-- Character class `[a-zA-Z0-9.-]` of the regex's domain part. -/
def isDomainChar (c : Char) : Bool :=
  c.isAlpha || c.isDigit || c = '.' || c = '-'

/-- Matches the regex tail `[a-zA-Z]{2,}$`: at least two letters, to the end. -/
def matchTLD (cs : List Char) : Bool :=
  decide (2 ≤ cs.length) && cs.all Char.isAlpha

/-- Matches `[a-zA-Z0-9.-]*\.[a-zA-Z]{2,}$` with backtracking: either the
next char is the literal dot followed by the TLD, or it is a domain char
and the rest matches. -/
def matchDotTLD : List Char → Bool
  | [] => false
  | c :: rest => (c = '.' && matchTLD rest) || (isDomainChar c && matchDotTLD rest)

/-- Matches `[a-zA-Z0-9.-]+\.[a-zA-Z]{2,}$` (the part after the `@`). -/
def matchDomain : List Char → Bool
  | [] => false
  | c :: rest => isDomainChar c && matchDotTLD rest

/-- Matches `[a-zA-Z0-9._%+-]*@...$`: consume local chars up to the `@`,
then match the domain.  `'@'` is not a local char, so this is deterministic. -/
def matchLocalRest : List Char → Bool
  | [] => false
  | c :: rest => if c = '@' then matchDomain rest else isLocalChar c && matchLocalRest rest

/-- `re.match(email_pattern, s)` for the email regex of `app.py`
(the leading `+` forces at least one local char before the `@`). -/
def matchesEmailPattern (s : String) : Bool :=
  match s.toList with
  | [] => false
  | c :: rest => isLocalChar c && matchLocalRest rest

/-- The documented email pattern, stated from the spec's words
(§4.1 / §8): a non-empty local part of letters/digits/`._%+-`, an `@`,
a domain with at least one dot whose final component (the TLD) is at
least two letters, i.e. `local @ domain . tld`. -/
def SpecEmailOk (cs : List Char) : Prop :=
  ∃ lcl dom tld : List Char,
    cs = lcl ++ '@' :: (dom ++ '.' :: tld) ∧
    lcl ≠ [] ∧ lcl.all isLocalChar ∧
    dom ≠ [] ∧ dom.all isDomainChar ∧
    2 ≤ tld.length ∧ tld.all Char.isAlpha

/-! ## Validators (`validate_auth_data`, `validate_registration_data`) -/

/-- Raw request body for `/api/auth/register` and `/api/auth/login`:
`data.get(k, '')` returns `''` when the key is absent, modelled by
`Option String` read through `getD ""`. -/
structure AuthData where
  name : Option String
  email : Option String
  password : Option String
deriving DecidableEq, Repr

/-- The error dictionary of `validate_auth_data`: one optional message
per field (absent key = no error). -/
structure AuthErrors where
  name : Option String
  email : Option String
  password : Option String
deriving DecidableEq, Repr

/-- `validate_auth_data(data, is_login)` of `app.py` lines 111–134. -/
def validate_auth_data (data : AuthData) (is_login : Bool) : AuthErrors :=
  let name := pyStrip (data.name.getD "")
  let nameErr : Option String :=
    if is_login then none
    else if name = "" then some "Name is required"
    else if name.length < 2 then some "Name must be at least 2 characters long"
    else none
  let email := pyLower (pyStrip (data.email.getD ""))
  let emailErr : Option String :=
    if email = "" then some "Email is required"
    else if ¬ matchesEmailPattern email then some "Must be a valid email format"
    else none
  let password := data.password.getD ""
  let passwordErr : Option String :=
    if password = "" then some "Password is required"
    else if password.length < 6 then some "Password must be at least 6 characters long"
    else none
  ⟨nameErr, emailErr, passwordErr⟩

/-- Raw request body for `/api/register` (legacy full registration). -/
structure RegData where
  fullName : Option String
  email : Option String
  phone : Option String
  password : Option String
  confirmPassword : Option String
deriving DecidableEq, Repr

/-- The error dictionary of `validate_registration_data`. -/
structure RegErrors where
  fullName : Option String
  email : Option String
  phone : Option String
  password : Option String
  confirmPassword : Option String
deriving DecidableEq, Repr

/-- `re.sub(r'\D', '', s)`: delete every non-digit character. -/
def stripNonDigits (s : String) : String :=
  ⟨s.toList.filter Char.isDigit⟩

/-- Python `str.isdigit` restricted to ASCII: true iff the string is
non-empty and consists solely of digits. -/
def pyIsdigit (s : String) : Bool :=
  !(s = "") && s.toList.all Char.isDigit

/-- `validate_registration_data(data)` of `app.py` lines 136–173. -/
def validate_registration_data (data : RegData) : RegErrors :=
  let full_name := pyStrip (data.fullName.getD "")
  let fullNameErr : Option String :=
    if full_name = "" then some "Full Name is required"
    else if full_name.length < 2 then some "Full Name must be at least 2 characters long"
    else none
  let email := pyLower (pyStrip (data.email.getD ""))
  let emailErr : Option String :=
    if email = "" then some "Email is required"
    else if ¬ matchesEmailPattern email then some "Must be a valid email format"
    else none
  let phone := pyStrip (data.phone.getD "")
  let phone_digits := stripNonDigits phone
  let phoneErr : Option String :=
    if phone = "" then some "Phone number is required"
    else if phone_digits.length < 10 || 15 < phone_digits.length then
      some "Phone must contain 10 to 15 digits only"
    else if ¬ pyIsdigit phone_digits then some "Phone must contain digits only"
    else none
  let password := data.password.getD ""
  let passwordErr : Option String :=
    if password = "" then some "Password is required"
    else if password.length < 6 then some "Password must be at least 6 characters long"
    else none
  let confirm_password := data.confirmPassword.getD ""
  let confirmErr : Option String :=
    if confirm_password = "" then some "Confirm Password is required"
    else if password ≠ confirm_password then some "Passwords do not match"
    else none
  ⟨fullNameErr, emailErr, phoneErr, passwordErr, confirmErr⟩

/-- No field error was collected (`validate_auth_data` returned `{}`). -/
def AuthErrors.isEmpty (e : AuthErrors) : Bool :=
  e.name.isNone && e.email.isNone && e.password.isNone

/-- No field error was collected (`validate_registration_data` returned `{}`). -/
def RegErrors.isEmpty (e : RegErrors) : Bool :=
  e.fullName.isNone && e.email.isNone && e.phone.isNone &&
    e.password.isNone && e.confirmPassword.isNone

/-- Trim every string field of an `AuthData` (the spec's §4.1 reading:
"All string inputs are trimmed before validation"). -/
def AuthData.trimFields (d : AuthData) : AuthData :=
  ⟨d.name.map pyStrip, d.email.map pyStrip, d.password.map pyStrip⟩

/-- Trim every string field of a `RegData`. -/
def RegData.trimFields (d : RegData) : RegData :=
  ⟨d.fullName.map pyStrip, d.email.map pyStrip, d.phone.map pyStrip,
   d.password.map pyStrip, d.confirmPassword.map pyStrip⟩

/-! ## Tokens and the auth middleware -/

/-- The claims dictionary encoded by `jwt.encode` in `app.py`:
`user_id`, `email`, and the expiration `exp` as a Unix timestamp in
seconds (PyJWT serializes the `datetime` to an integer timestamp). -/
structure TokenPayload where
  user_id : String
  email : String
  exp : Nat
deriving DecidableEq, Repr

/-- Modelled from the spec: PyJWT's `jwt.encode`/`jwt.decode` is an external
library, not repository source.  Per §4.2 a token is an opaque signed string
carrying its claims, signed HMAC-SHA256 with the process-wide secret; we
model the signed string as its payload together with the key that signed
it, so signature verification is key equality. -/
structure Jwt where
  payload : TokenPayload
  signedWith : String
deriving DecidableEq, Repr

/-- `jwt.encode(payload, secret, algorithm='HS256')`. -/
def jwt_encode (p : TokenPayload) (secret : String) : Jwt := ⟨p, secret⟩

/-- Outcome of `jwt.decode`: the payload, `jwt.ExpiredSignatureError`, or
`jwt.InvalidTokenError`. -/
inductive DecodeResult where
  | ok (p : TokenPayload)
  | expiredSignature
  | invalidToken
deriving DecidableEq, Repr

/-- Modelled from the spec (§4.2): `jwt.decode(token, secret, ['HS256'])`
evaluated at current time `now`: `InvalidTokenError` when the signature
does not verify against `secret`, `ExpiredSignatureError` when
`exp < now` (PyJWT compares integer timestamps with zero leeway), else
the decoded payload. -/
def jwt_decode (t : Jwt) (secret : String) (now : Nat) : DecodeResult :=
  if t.signedWith ≠ secret then .invalidToken
  else if t.payload.exp < now then .expiredSignature
  else .ok t.payload

/-- One space-delimited word of the `Authorization` header: either an
arbitrary non-token string (a scheme word such as `Bearer`, garbage, a
tampered token — anything `jwt.decode` rejects as invalid) or a
validly serialized token. -/
inductive HeaderWord where
  | raw (s : String)
  | tok (t : Jwt)
deriving DecidableEq, Repr

/-- Python truthiness of a header word as a string: only `""` is falsy. -/
def HeaderWord.truthy : HeaderWord → Bool
  | .raw s => !(s = "")
  | .tok _ => true

/-- `jwt.decode` applied to a wire word: a word that is not a validly
serialized token raises `InvalidTokenError`. -/
def decodeWord (w : HeaderWord) (secret : String) (now : Nat) : DecodeResult :=
  match w with
  | .raw _ => .invalidToken
  | .tok t => jwt_decode t secret now

/-- A document of the `users` collection.  `oid` is the Mongo `_id`
(an ObjectId, kept as a string); `password` holds the salted hash;
the two registration surfaces populate `name`/`fullName`/`phone`
differently, hence the `Option`s. -/
structure UserDoc where
  oid : String
  name : Option String
  fullName : Option String
  email : String
  phone : Option String
  password : String
deriving DecidableEq, Repr

/-- Outcome of a request through `auth_middleware`: the wrapped handler's
response, or an error JSON body `{'error': msg}` with its HTTP status. -/
inductive GateResult (α : Type) where
  | response (a : α)
  | error (msg : String) (status : Nat)
deriving DecidableEq, Repr

/-- `auth_middleware` of `app.py` lines 75–109, with the database available.
`header` is the raw `Authorization` header already split on `' '`
(Python's `split(" ")` never returns `[]`: the empty header splits to
`[""]`, so a present-but-empty header is exactly `some [.raw ""]`, which
is falsy under `if auth_header:`).  The code takes `split(" ")[1]` as the
token — an `IndexError` (fewer than two words) yields the 401
`Invalid token format` — and never inspects the scheme word
`split(" ")[0]`. -/
def auth_middleware {α : Type} (users : List UserDoc) (header : Option (List HeaderWord))
    (secret : String) (now : Nat) (handler : UserDoc → α) : GateResult α :=
  let token? : Except (GateResult α) (Option HeaderWord) :=
    match header with
    | none => .ok none
    | some ws =>
        if ws = [.raw ""] then .ok none
        else
          match ws.get? 1 with
          | none => .error (.error "Invalid token format" 401)
          | some w => .ok (some w)
  match token? with
  | .error e => e
  | .ok none => .error "Token is missing" 401
  | .ok (some w) =>
      if ¬ w.truthy then .error "Token is missing" 401
      else
        match decodeWord w secret now with
        | .invalidToken => .error "Token is invalid" 401
        | .expiredSignature => .error "Token has expired" 401
        | .ok payload =>
            match users.find? (fun u => u.oid = payload.user_id) with
            | none => .error "User not found" 401
            | some current_user => .response (handler current_user)

/-! ## Registration endpoints -/

/-- Modelled from the spec: `werkzeug.security.generate_password_hash` is
the external salted-hash primitive (§2 "Password Hasher", consumed, not
reimplemented).  Opaque to every claim here; modelled as a tagged copy of
the password. -/
def generate_password_hash (password : String) : String :=
  "pbkdf2:" ++ password

/-- Token issuance as inlined at `app.py` lines 214–218 (and 262–266):
`jwt.encode({'user_id': uid, 'email': em, 'exp': utcnow() + timedelta(hours=24)},
SECRET_KEY, algorithm='HS256')`. -/
def issueToken (user_id email secret : String) (now : Nat) : Jwt :=
  jwt_encode ⟨user_id, email, now + 24 * 3600⟩ secret

/-- Response of `POST /api/auth/register`. -/
inductive RegisterJwtResp where
  | created (token : Jwt) (user : UserDoc)
  | validationFailed (errors : AuthErrors)
  | emailTaken
  | noData
deriving DecidableEq, Repr

/-- `register_jwt` (`POST /api/auth/register`, `app.py` lines 175–236),
database available.  `newId` is the ObjectId Mongo assigns to the inserted
document.  Returns the response together with the users collection after
the call. -/
def register_jwt (users : List UserDoc) (data? : Option AuthData) (secret : String)
    (now : Nat) (newId : String) : RegisterJwtResp × List UserDoc :=
  match data? with
  | none => (.noData, users)
  | some data =>
      let errors := validate_auth_data data false
      if ¬ errors.isEmpty then (.validationFailed errors, users)
      else
        let normEmail := pyLower (pyStrip (data.email.getD ""))
        match users.find? (fun u => u.email = normEmail) with
        | some _ => (.emailTaken, users)
        | none =>
            let user_data : UserDoc :=
              { oid := newId
                name := some (pyStrip (data.name.getD ""))
                fullName := none
                email := normEmail
                phone := none
                password := generate_password_hash (data.password.getD "") }
            (.created (issueToken newId normEmail secret now) user_data,
             users ++ [user_data])

/-- Modelled from the spec: `werkzeug.security.check_password_hash`, the
verify half of the external hash primitive. -/
def check_password_hash (hash password : String) : Bool :=
  hash = generate_password_hash password

/-- Response of `POST /api/auth/login`. -/
inductive LoginResp where
  | loggedIn (token : Jwt) (user : UserDoc)
  | validationFailed (errors : AuthErrors)
  | invalidCredentials
  | noData
deriving DecidableEq, Repr

/-- `login_jwt` (`POST /api/auth/login`, `app.py` lines 238–283), database
available.  The issued token carries the stored user's `_id` and `email`
(`app.py` lines 262–266). -/
def login_jwt (users : List UserDoc) (data? : Option AuthData) (secret : String)
    (now : Nat) : LoginResp :=
  match data? with
  | none => .noData
  | some data =>
      let errors := validate_auth_data data true
      if ¬ errors.isEmpty then .validationFailed errors
      else
        let normEmail := pyLower (pyStrip (data.email.getD ""))
        match users.find? (fun u => u.email = normEmail) with
        | none => .invalidCredentials
        | some user =>
            if ¬ check_password_hash user.password (data.password.getD "") then
              .invalidCredentials
            else .loggedIn (issueToken user.oid user.email secret now) user

/-- Response of legacy `POST /api/register`. -/
inductive RegisterUserResp where
  | created (user : UserDoc)
  | validationFailed (errors : RegErrors)
  | emailTaken
  | noData
deriving DecidableEq, Repr

/-- `register_user` (`POST /api/register`, `app.py` lines 546–601),
database available. -/
def register_user (users : List UserDoc) (data? : Option RegData) (newId : String) :
    RegisterUserResp × List UserDoc :=
  match data? with
  | none => (.noData, users)
  | some data =>
      let errors := validate_registration_data data
      if ¬ errors.isEmpty then (.validationFailed errors, users)
      else
        let normEmail := pyLower (pyStrip (data.email.getD ""))
        match users.find? (fun u => u.email = normEmail) with
        | some _ => (.emailTaken, users)
        | none =>
            let user_data : UserDoc :=
              { oid := newId
                name := none
                fullName := some (pyStrip (data.fullName.getD ""))
                email := normEmail
                phone := some (stripNonDigits (pyStrip (data.phone.getD "")))
                password := generate_password_hash (data.password.getD "") }
            (.created user_data, users ++ [user_data])

/-! ## Products -/

/-- A JSON value appearing in the `price` position: the handlers call
`float(...)` on it, which succeeds on numbers and on decimal strings.
Python floats are modelled as rationals (sign comparisons agree on every
decimal literal the handlers see). -/
inductive PriceVal where
  | num (q : ℚ)
  | str (s : String)
deriving DecidableEq, Repr

/-- Evaluate a digit list as a natural number. -/
def digitsToNat (cs : List Char) : Nat :=
  cs.foldl (fun acc c => acc * 10 + (c.toNat - '0'.toNat)) 0

/-- Python `float(s)` on a string: an optionally signed decimal numeral,
with surrounding whitespace allowed; `none` models `ValueError`
(e.g. `float("abc")`).  (Python also accepts exponent notation and
`inf`/`nan`, which no input in the claims exercises.) -/
def parseDecimal? (s : String) : Option ℚ :=
  let cs := (pyStrip s).toList
  let (sign, body) : ℚ × List Char :=
    match cs with
    | '-' :: rest => (-1, rest)
    | '+' :: rest => (1, rest)
    | _ => (1, cs)
  let intPart := body.takeWhile Char.isDigit
  let rest := body.dropWhile Char.isDigit
  match rest with
  | [] => if intPart.isEmpty then none else some (sign * (digitsToNat intPart : ℚ))
  | '.' :: frac =>
      if frac.all Char.isDigit && !(intPart.isEmpty && frac.isEmpty) then
        some (sign * ((digitsToNat intPart : ℚ) +
          (digitsToNat frac : ℚ) / (10 : ℚ) ^ frac.length))
      else none
  | _ => none

/-- Python `float(x)` on a JSON value; `none` models
`ValueError`/`TypeError`. -/
def pyFloat? : PriceVal → Option ℚ
  | .num q => some q
  | .str s => parseDecimal? s

/-- Python truthiness of a JSON value in the price position. -/
def PriceVal.truthy : PriceVal → Bool
  | .num q => !(q = 0)
  | .str s => !(s = "")

/-- Python truthiness of `data.get(field)` for a string field. -/
def strTruthy : Option String → Bool
  | none => false
  | some s => !(s = "")

/-- A document of the `products` collection (`_id` omitted: the handlers
only echo it back as a string).  `id` is the client-visible uuid4 string. -/
structure Product where
  id : String
  title : String
  description : String
  price : ℚ
  image : String
  createdBy : String
  createdAt : Nat
  updatedAt : Option Nat
deriving DecidableEq, Repr

/-- Raw request body for `POST /api/products` / `PUT /api/products/<id>`. -/
structure ProductInput where
  title : Option String
  description : Option String
  price : Option PriceVal
  image : Option String
deriving DecidableEq, Repr

/-- The error dictionary of `create_product`. -/
structure ProductErrors where
  title : Option String
  description : Option String
  price : Option String
deriving DecidableEq, Repr

/-- Response of `POST /api/products`. -/
inductive CreateResp where
  | created (p : Product)
  | validationFailed (errors : ProductErrors)
  | noData
deriving DecidableEq, Repr

/-- `create_product` (`POST /api/products`, `app.py` lines 372–429),
database available, auth already passed.  `newUuid` is the generated
`uuid4` string.  The required-field loop writes `'<Field> is required'`
for each falsy field; the `try: float(...)` block then overwrites the
`price` entry when it fails or the value is non-positive. -/
def create_product (store : List Product) (current_user : UserDoc)
    (data? : Option ProductInput) (newUuid : String) (now : Nat) :
    CreateResp × List Product :=
  match data? with
  | none => (.noData, store)
  | some data =>
      let titleErr : Option String :=
        if strTruthy data.title then none else some "Title is required"
      let descriptionErr : Option String :=
        if strTruthy data.description then none else some "Description is required"
      let priceReqErr : Option String :=
        if (data.price.map PriceVal.truthy).getD false then none
        else some "Price is required"
      let priceTryErr : Option String :=
        match pyFloat? (data.price.getD (.num 0)) with
        | none => some "Price must be a valid number"
        | some price => if price ≤ 0 then some "Price must be a positive number" else none
      let priceErr := priceTryErr.orElse (fun _ => priceReqErr)
      if titleErr.isSome || descriptionErr.isSome || priceErr.isSome then
        (.validationFailed ⟨titleErr, descriptionErr, priceErr⟩, store)
      else
        match pyFloat? (data.price.getD (.num 0)) with
        | some price =>
            let product_data : Product :=
              { id := newUuid
                title := pyStrip (data.title.getD "")
                description := pyStrip (data.description.getD "")
                price := price
                image := data.image.getD "https://via.placeholder.com/300x200"
                createdBy := current_user.oid
                createdAt := now
                updatedAt := none }
            (.created product_data, store ++ [product_data])
        | none =>
            -- unreachable: `pyFloat?` failing forces `priceErr.isSome`
            (.validationFailed ⟨titleErr, descriptionErr, priceErr⟩, store)

/-- Response of `PUT /api/products/<id>`. -/
inductive UpdateResp where
  | updated (p : Product)
  | notFound
  | pricePositiveErr
  | priceInvalidErr
  | noData
deriving DecidableEq, Repr

/-- Mongo `update_one({'id': pid}, {'$set': ...})`: replace the first
matching document. -/
def updateFirst (store : List Product) (pid : String) (p' : Product) : List Product :=
  match store with
  | [] => []
  | p :: rest => if p.id = pid then p' :: rest else p :: updateFirst rest pid p'

/-- `update_product` (`PUT /api/products/<id>`, `app.py` lines 460–514),
database available, auth already passed.  A non-positive price returns 400
`Price must be positive` and an unparseable one 400 `Invalid price`,
both before `update_one` writes anything. -/
def update_product (store : List Product) (product_id : String)
    (data? : Option ProductInput) (now : Nat) : UpdateResp × List Product :=
  match data? with
  | none => (.noData, store)
  | some data =>
      match store.find? (fun p => p.id = product_id) with
      | none => (.notFound, store)
      | some product =>
          let priceField : Except UpdateResp (Option ℚ) :=
            match data.price with
            | none => .ok none
            | some v =>
                match pyFloat? v with
                | none => .error .priceInvalidErr
                | some q => if q ≤ 0 then .error .pricePositiveErr else .ok (some q)
          match priceField with
          | .error e => (e, store)
          | .ok q? =>
              let updated : Product :=
                { product with
                  title := (data.title.map pyStrip).getD product.title
                  description := (data.description.map pyStrip).getD product.description
                  price := q?.getD product.price
                  image := data.image.getD product.image
                  updatedAt := some now }
              (.updated updated, updateFirst store product_id updated)

/-- The `pagination` object of the `GET /api/products` response. -/
structure Pagination where
  currentPage : Nat
  totalPages : Nat
  totalItems : Nat
  itemsPerPage : Nat
  hasNext : Bool
  hasPrev : Bool
deriving DecidableEq, Repr

/-- `get_products` (`GET /api/products`, `app.py` lines 297–370), database
available, auth already passed.  `page0`/`limit0` are the integer query
parameters after `int(...)`; `keywordFilter` is the Mongo `$text` filter
induced by `keyword` (`fun _ => true` when `keyword` is empty); `le` is
the comparator induced by `sort_param` (the Mongo sort permutes the
matching documents, modelled by `List.mergeSort`). -/
def get_products (store : List Product) (page0 limit0 : Int)
    (keywordFilter : Product → Bool) (le : Product → Product → Bool) :
    List Product × Pagination :=
  let page : Int := if page0 < 1 then 1 else page0
  let limit : Int := if limit0 < 1 || 100 < limit0 then 10 else limit0
  let page : Nat := page.toNat
  let limit : Nat := limit.toNat
  let skip := (page - 1) * limit
  let matching := store.filter keywordFilter
  let products := ((matching.mergeSort le).drop skip).take limit
  let total_count := matching.length
  let total_pages := (total_count + limit - 1) / limit
  (products,
   { currentPage := page
     totalPages := total_pages
     totalItems := total_count
     itemsPerPage := limit
     hasNext := decide (page < total_pages)
     hasPrev := decide (1 < page) })

/-! ## Helper lemmas on stripping and digit extraction -/

theorem dropWhile_head_false (p : Char → Bool) (l : List Char) :
    ∀ c cs, l.dropWhile p = c :: cs → p c = false := by
  induction l with
  | nil => intro c cs h; simp at h
  | cons a l ih =>
      intro c cs h
      rw [List.dropWhile_cons] at h
      by_cases hp : p a
      · rw [if_pos hp] at h; exact ih c cs h
      · rw [if_neg hp] at h
        injection h with h1 _
        subst h1
        simpa using hp

theorem dropWhile_of_head_false (p : Char → Bool) (m : List Char)
    (h : ∀ c cs, m = c :: cs → p c = false) : m.dropWhile p = m := by
  cases m with
  | nil => rfl
  | cons c cs => rw [List.dropWhile_cons, h c cs rfl]; simp

theorem dropWhile_dropWhile (p : Char → Bool) (l : List Char) :
    (l.dropWhile p).dropWhile p = l.dropWhile p :=
  dropWhile_of_head_false p _ (fun c cs h => dropWhile_head_false p l c cs h)

theorem dropWhile_reverse_fix (p : Char → Bool) (l : List Char) :
    ((l.dropWhile p).reverse.dropWhile p).reverse.dropWhile p
      = ((l.dropWhile p).reverse.dropWhile p).reverse := by
  apply dropWhile_of_head_false
  intro c cs h
  obtain ⟨t, ht⟩ :=
    (List.dropWhile_suffix p :
      (l.dropWhile p).reverse.dropWhile p <:+ (l.dropWhile p).reverse)
  have hA : l.dropWhile p = c :: (cs ++ t.reverse) := by
    have h1 : l.dropWhile p = (t ++ (l.dropWhile p).reverse.dropWhile p).reverse := by
      rw [ht, List.reverse_reverse]
    rw [h1, List.reverse_append, h]
    rfl
  exact dropWhile_head_false p l c _ hA

theorem stripList_idem (l : List Char) : stripList (stripList l) = stripList l := by
  have hrev : (stripList l).reverse
      = (l.dropWhile Char.isWhitespace).reverse.dropWhile Char.isWhitespace := by
    unfold stripList; rw [List.reverse_reverse]
  have h2 : (stripList l).reverse.dropWhile Char.isWhitespace = (stripList l).reverse := by
    rw [hrev]; exact dropWhile_dropWhile _ _
  have h1 : (stripList l).dropWhile Char.isWhitespace = stripList l :=
    dropWhile_reverse_fix Char.isWhitespace l
  show (((stripList l).dropWhile Char.isWhitespace).reverse.dropWhile
      Char.isWhitespace).reverse = stripList l
  rw [h1, h2, List.reverse_reverse]

theorem pyStrip_idem (s : String) : pyStrip (pyStrip s) = pyStrip s :=
  congrArg String.mk (stripList_idem s.toList)

theorem isWhitespace_not_isDigit (c : Char) (h : c.isWhitespace = true) :
    c.isDigit = false := by
  simp only [Char.isWhitespace, Bool.or_eq_true, decide_eq_true_eq] at h
  rcases h with ((h | h) | h) | h <;> (subst h; decide)

theorem filter_dropWhile_of_excl (p q : Char → Bool) (l : List Char)
    (hpq : ∀ c, q c = true → p c = false) :
    (l.dropWhile q).filter p = l.filter p := by
  induction l with
  | nil => rfl
  | cons a l ih =>
      rw [List.dropWhile_cons]
      by_cases hq : q a
      · rw [if_pos hq, ih, List.filter_cons, hpq a hq]
        simp
      · rw [if_neg hq]

theorem filter_stripList (p : Char → Bool) (l : List Char)
    (hp : ∀ c, c.isWhitespace = true → p c = false) :
    (stripList l).filter p = l.filter p := by
  unfold stripList
  rw [List.filter_reverse, filter_dropWhile_of_excl p _ _ hp, List.filter_reverse,
    List.reverse_reverse, filter_dropWhile_of_excl p _ _ hp]

theorem stripNonDigits_pyStrip (s : String) :
    stripNonDigits (pyStrip s) = stripNonDigits s :=
  congrArg String.mk (filter_stripList Char.isDigit s.toList isWhitespace_not_isDigit)

/-! ## C4 and C10: phone validation -/

/-- The phone component of `validate_registration_data`, read off the
definition. -/
theorem phoneErr_eq (d : RegData) :
    (validate_registration_data d).phone =
      (if pyStrip (d.phone.getD "") = "" then some "Phone number is required"
       else if (stripNonDigits (pyStrip (d.phone.getD ""))).length < 10 ∨
           15 < (stripNonDigits (pyStrip (d.phone.getD ""))).length then
         some "Phone must contain 10 to 15 digits only"
       else if ¬ pyIsdigit (stripNonDigits (pyStrip (d.phone.getD ""))) then
         some "Phone must contain digits only"
       else none) := by
  unfold validate_registration_data
  simp only [Bool.or_eq_true, decide_eq_true_eq]

theorem stripNonDigits_ne_empty (s : String)
    (h : 1 ≤ (stripNonDigits s).length) : stripNonDigits s ≠ "" := by
  intro hcon
  rw [hcon] at h
  exact absurd h (by decide)

theorem pyIsdigit_stripNonDigits (s : String) (h : stripNonDigits s ≠ "") :
    pyIsdigit (stripNonDigits s) = true := by
  unfold pyIsdigit
  simp only [Bool.and_eq_true, Bool.not_eq_true', decide_eq_false_iff_not,
    List.all_eq_true]
  refine ⟨h, fun c hc => ?_⟩
  have hc' : c ∈ s.toList.filter Char.isDigit := hc
  exact List.of_mem_filter hc'

/-- C4: full registration validation accepts a phone `P` iff `P` is
non-empty after trimming and the string obtained by deleting every
non-digit character of `P` has length in `[10, 15]`; `123-456-7890` is
accepted, `12345` and `abcdefghij` are rejected. -/
theorem phone_accept_iff :
    (∀ d : RegData,
        (validate_registration_data d).phone = none ↔
          (pyStrip (d.phone.getD "") ≠ "" ∧
           10 ≤ (stripNonDigits (d.phone.getD "")).length ∧
           (stripNonDigits (d.phone.getD "")).length ≤ 15)) ∧
    (validate_registration_data
        ⟨some "Al", some "a@b.co", some "123-456-7890", some "secret", some "secret"⟩).phone
      = none ∧
    (validate_registration_data
        ⟨some "Al", some "a@b.co", some "12345", some "secret", some "secret"⟩).phone
      = some "Phone must contain 10 to 15 digits only" ∧
    (validate_registration_data
        ⟨some "Al", some "a@b.co", some "abcdefghij", some "secret", some "secret"⟩).phone
      = some "Phone must contain 10 to 15 digits only" := by
  refine ⟨?_, by decide, by decide, by decide⟩
  intro d
  rw [phoneErr_eq, stripNonDigits_pyStrip (d.phone.getD "")]
  constructor
  · intro h
    split_ifs at h with hA hB hC
    all_goals simp at h
    all_goals push_neg at hB
    all_goals exact ⟨hA, hB.1, hB.2⟩
  · rintro ⟨h1, h2, h3⟩
    rw [if_neg h1, if_neg (by push_neg; exact ⟨h2, h3⟩)]
    rw [if_neg (not_not_intro (pyIsdigit_stripNonDigits _
      (stripNonDigits_ne_empty _ (by omega))))]

/-- C10: the third phone branch, which would report
`Phone must contain digits only`, is unreachable: the only phone errors
`validate_registration_data` ever emits are the required-field error and
the 10-to-15-digits length error. -/
theorem phone_digits_branch_unreachable (d : RegData) :
    (validate_registration_data d).phone = none ∨
    (validate_registration_data d).phone = some "Phone number is required" ∨
    (validate_registration_data d).phone = some "Phone must contain 10 to 15 digits only" := by
  rw [phoneErr_eq]
  split_ifs with hA hB hC
  · right; left; rfl
  · right; right; rfl
  · left; rfl
  · exfalso
    push_neg at hB
    have hdig : pyIsdigit (stripNonDigits (pyStrip (d.phone.getD ""))) = true :=
      pyIsdigit_stripNonDigits (pyStrip (d.phone.getD ""))
        (stripNonDigits_ne_empty (pyStrip (d.phone.getD "")) (by omega))
    exact hC hdig

/-! ## C2: which fields are trimmed -/

theorem strip_map_getD (o : Option String) :
    pyStrip ((o.map pyStrip).getD "") = pyStrip (o.getD "") := by
  cases o with
  | none => rfl
  | some s => exact pyStrip_idem s

/-- The password component of `validate_auth_data`, read off the
definition: the rule applies to the raw, untrimmed field. -/
theorem authPasswordErr_eq (d : AuthData) (b : Bool) :
    (validate_auth_data d b).password =
      (if d.password.getD "" = "" then some "Password is required"
       else if (d.password.getD "").length < 6 then
         some "Password must be at least 6 characters long"
       else none) := rfl

/-- The password component of `validate_registration_data`. -/
theorem regPasswordErr_eq (d : RegData) :
    (validate_registration_data d).password =
      (if d.password.getD "" = "" then some "Password is required"
       else if (d.password.getD "").length < 6 then
         some "Password must be at least 6 characters long"
       else none) := rfl

/-- The confirmPassword component of `validate_registration_data`:
an exact comparison of the raw fields. -/
theorem regConfirmErr_eq (d : RegData) :
    (validate_registration_data d).confirmPassword =
      (if d.confirmPassword.getD "" = "" then some "Confirm Password is required"
       else if d.password.getD "" ≠ d.confirmPassword.getD "" then
         some "Passwords do not match"
       else none) := rfl

/-- C2 counterexample: the validators do not trim `password` or
`confirmPassword`.  The untrimmed 6-character password `" abcd "` passes
the length rule though its trimmed form has 4 characters; a
`confirmPassword` equal to `password` up to surrounding whitespace is
rejected as a mismatch; and pre-trimming every field changes both
validators' output. -/
theorem password_fields_not_trimmed :
    (validate_auth_data ⟨some "Al", some "a@b.co", some " abcd "⟩ false).password = none ∧
    (pyStrip " abcd ").length < 6 ∧
    (validate_registration_data
        ⟨some "Al", some "a@b.co", some "123-456-7890", some "secret",
         some "secret "⟩).confirmPassword = some "Passwords do not match" ∧
    pyStrip "secret " = pyStrip "secret" ∧
    validate_auth_data ⟨some "Al", some "a@b.co", some " abcd "⟩ false ≠
      validate_auth_data
        (AuthData.trimFields ⟨some "Al", some "a@b.co", some " abcd "⟩) false ∧
    validate_registration_data
        ⟨some "Al", some "a@b.co", some "123-456-7890", some "secret", some "secret "⟩ ≠
      validate_registration_data
        (RegData.trimFields
          ⟨some "Al", some "a@b.co", some "123-456-7890", some "secret", some "secret "⟩) := by
  decide

/-- C2 amended: the validators trim `name`/`fullName`, `email` (before
lowercasing) and `phone` before applying their rules — pre-trimming those
three fields never changes the outcome — but `password` and
`confirmPassword` are used raw: the length rule applies to the untrimmed
password, and the password/confirmPassword check compares the raw strings
for exact equality. -/
theorem trimming_scope :
    (∀ (d : AuthData) (b : Bool),
        validate_auth_data ⟨d.name.map pyStrip, d.email.map pyStrip, d.password⟩ b
          = validate_auth_data d b) ∧
    (∀ d : RegData,
        validate_registration_data
          ⟨d.fullName.map pyStrip, d.email.map pyStrip, d.phone.map pyStrip,
           d.password, d.confirmPassword⟩
          = validate_registration_data d) ∧
    (∀ (d : AuthData) (b : Bool),
        (validate_auth_data d b).password = none ↔ 6 ≤ (d.password.getD "").length) ∧
    (∀ d : RegData,
        ((validate_registration_data d).password = none ↔
            6 ≤ (d.password.getD "").length) ∧
        ((validate_registration_data d).confirmPassword = none ↔
            (d.confirmPassword.getD "" ≠ "" ∧
             d.password.getD "" = d.confirmPassword.getD ""))) := by
  refine ⟨?_, ?_, ?_, ?_⟩
  · intro d b
    simp only [validate_auth_data, strip_map_getD]
  · intro d
    simp only [validate_registration_data, strip_map_getD]
  · intro d b
    rw [authPasswordErr_eq]
    split_ifs with hA hB
    · simp only [hA]
      constructor
      · intro h; exact absurd h (by simp)
      · intro h; exact absurd h (by decide)
    · constructor
      · intro h; exact absurd h (by simp)
      · intro h; omega
    · constructor
      · intro _; omega
      · intro _; rfl
  · intro d
    constructor
    · rw [regPasswordErr_eq]
      split_ifs with hA hB
      · simp only [hA]
        constructor
        · intro h; exact absurd h (by simp)
        · intro h; exact absurd h (by decide)
      · constructor
        · intro h; exact absurd h (by simp)
        · intro h; omega
      · constructor
        · intro _; omega
        · intro _; rfl
    · rw [regConfirmErr_eq]
      split_ifs with hA hB
      · simp [hA]
      · constructor
        · intro h; exact absurd h (by simp)
        · rintro ⟨_, h⟩; exact absurd h hB
      · push_neg at hB
        simp [hA, hB]

/-! ## C3: the email pattern -/

theorem matchTLD_iff (cs : List Char) :
    matchTLD cs = true ↔ 2 ≤ cs.length ∧ cs.all Char.isAlpha = true := by
  simp [matchTLD]

theorem matchDotTLD_iff (cs : List Char) :
    matchDotTLD cs = true ↔
      ∃ p t, cs = p ++ '.' :: t ∧ p.all isDomainChar = true ∧ matchTLD t = true := by
  induction cs with
  | nil =>
      constructor
      · intro h; exact absurd h (by simp [matchDotTLD])
      · rintro ⟨p, t, heq, _, _⟩; exact absurd heq.symm (by simp)
  | cons c cs ih =>
      simp only [matchDotTLD, Bool.or_eq_true, Bool.and_eq_true, decide_eq_true_eq]
      constructor
      · rintro (⟨hc, ht⟩ | ⟨hc, hrest⟩)
        · exact ⟨[], cs, by rw [hc]; rfl, by simp, ht⟩
        · obtain ⟨p, t, heq, hall, ht⟩ := ih.mp hrest
          refine ⟨c :: p, t, by rw [heq]; rfl, ?_, ht⟩
          simp only [List.all_cons, Bool.and_eq_true]
          exact ⟨hc, hall⟩
      · rintro ⟨p, t, heq, hall, ht⟩
        cases p with
        | nil =>
            injection heq with h1 h2
            left; exact ⟨h1, h2 ▸ ht⟩
        | cons a p' =>
            injection heq with h1 h2
            subst h1
            simp only [List.all_cons, Bool.and_eq_true] at hall
            right
            exact ⟨hall.1, ih.mpr ⟨p', t, h2, hall.2, ht⟩⟩

theorem matchDomain_iff (cs : List Char) :
    matchDomain cs = true ↔
      ∃ dom tld, cs = dom ++ '.' :: tld ∧ dom ≠ [] ∧ dom.all isDomainChar = true ∧
        matchTLD tld = true := by
  cases cs with
  | nil =>
      constructor
      · intro h; exact absurd h (by simp [matchDomain])
      · rintro ⟨dom, tld, heq, _, _, _⟩; exact absurd heq.symm (by simp)
  | cons c cs =>
      simp only [matchDomain, Bool.and_eq_true]
      rw [matchDotTLD_iff]
      constructor
      · rintro ⟨hc, p, t, heq, hall, ht⟩
        refine ⟨c :: p, t, by rw [heq]; rfl, by simp, ?_, ht⟩
        simp only [List.all_cons, Bool.and_eq_true]
        exact ⟨hc, hall⟩
      · rintro ⟨dom, tld, heq, hne, hall, ht⟩
        cases dom with
        | nil => exact absurd rfl hne
        | cons a d' =>
            injection heq with h1 h2
            subst h1
            simp only [List.all_cons, Bool.and_eq_true] at hall
            exact ⟨hall.1, d', tld, h2, hall.2, ht⟩

theorem matchLocalRest_iff (cs : List Char) :
    matchLocalRest cs = true ↔
      ∃ l rest, cs = l ++ '@' :: rest ∧ l.all isLocalChar = true ∧
        matchDomain rest = true := by
  induction cs with
  | nil =>
      constructor
      · intro h; exact absurd h (by simp [matchLocalRest])
      · rintro ⟨l, rest, heq, _, _⟩; exact absurd heq.symm (by simp)
  | cons c cs ih =>
      by_cases hc : c = '@'
      · subst hc
        simp only [matchLocalRest, if_pos rfl]
        constructor
        · intro h; exact ⟨[], cs, rfl, by simp, h⟩
        · rintro ⟨l, rest, heq, hall, hdom⟩
          cases l with
          | nil =>
              injection heq with _ h2
              exact h2 ▸ hdom
          | cons a l' =>
              injection heq with h1 h2
              subst h1
              simp only [List.all_cons, Bool.and_eq_true] at hall
              exact absurd hall.1 (by decide)
      · rw [show matchLocalRest (c :: cs) = (isLocalChar c && matchLocalRest cs) from by
            simp [matchLocalRest, hc]]
        simp only [Bool.and_eq_true]
        rw [ih]
        constructor
        · rintro ⟨hcl, l, rest, heq, hall, hdom⟩
          refine ⟨c :: l, rest, by rw [heq]; rfl, ?_, hdom⟩
          simp only [List.all_cons, Bool.and_eq_true]
          exact ⟨hcl, hall⟩
        · rintro ⟨l, rest, heq, hall, hdom⟩
          cases l with
          | nil =>
              injection heq with h1 _
              exact absurd h1 hc
          | cons a l' =>
              injection heq with h1 h2
              subst h1
              simp only [List.all_cons, Bool.and_eq_true] at hall
              exact ⟨hall.1, l', rest, h2, hall.2, hdom⟩

/-- The embedded regex matches exactly the documented pattern. -/
theorem matchesEmailPattern_iff (s : String) :
    matchesEmailPattern s = true ↔ SpecEmailOk s.toList := by
  unfold matchesEmailPattern SpecEmailOk
  cases hs : s.toList with
  | nil =>
      constructor
      · intro h; exact absurd h (by simp)
      · rintro ⟨lcl, dom, tld, heq, hne, _⟩
        exact absurd heq.symm (by simp)
  | cons c rest =>
      simp only [Bool.and_eq_true]
      rw [matchLocalRest_iff]
      constructor
      · rintro ⟨hcl, l, rest', heq, hall, hdom⟩
        obtain ⟨dom, tld, heqd, hdne, hdall, htld⟩ := (matchDomain_iff rest').mp hdom
        obtain ⟨hlen, halpha⟩ := (matchTLD_iff tld).mp htld
        refine ⟨c :: l, dom, tld, ?_, by simp, ?_, hdne, hdall, hlen, halpha⟩
        · rw [heq, heqd]; rfl
        · simp only [List.all_cons, Bool.and_eq_true]
          exact ⟨hcl, hall⟩
      · rintro ⟨lcl, dom, tld, heq, hlne, hlall, hdne, hdall, hlen, halpha⟩
        cases lcl with
        | nil => exact absurd rfl hlne
        | cons a l' =>
            injection heq with h1 h2
            subst h1
            simp only [List.all_cons, Bool.and_eq_true] at hlall
            refine ⟨hlall.1, l', dom ++ '.' :: tld, h2, hlall.2, ?_⟩
            exact (matchDomain_iff _).mpr ⟨dom, tld, rfl, hdne, hdall,
              (matchTLD_iff tld).mpr ⟨hlen, halpha⟩⟩

/-- The email-error slot of either validator is `none` exactly when the
normalized email matches the pattern. -/
theorem emailErr_none_iff (e : String) :
    (if e = "" then some "Email is required"
     else if ¬ matchesEmailPattern e then some "Must be a valid email format"
     else none) = none ↔ SpecEmailOk e.toList := by
  split_ifs with h1 h2
  · constructor
    · intro h; exact absurd h (by simp)
    · rintro ⟨lcl, dom, tld, heq, hne, _⟩
      rw [h1] at heq
      exact absurd heq.symm (by simp)
  · constructor
    · intro _
      exact (matchesEmailPattern_iff e).mp h2
    · intro _; rfl
  · constructor
    · intro h; exact absurd h (by simp)
    · intro hspec
      exact absurd ((matchesEmailPattern_iff e).mpr hspec) h2

/-- The email component of `validate_auth_data`, read off the definition. -/
theorem authEmailErr_eq (d : AuthData) (b : Bool) :
    (validate_auth_data d b).email =
      (if pyLower (pyStrip (d.email.getD "")) = "" then some "Email is required"
       else if ¬ matchesEmailPattern (pyLower (pyStrip (d.email.getD ""))) then
         some "Must be a valid email format"
       else none) := rfl

/-- The email component of `validate_registration_data`. -/
theorem regEmailErr_eq (d : RegData) :
    (validate_registration_data d).email =
      (if pyLower (pyStrip (d.email.getD "")) = "" then some "Email is required"
       else if ¬ matchesEmailPattern (pyLower (pyStrip (d.email.getD ""))) then
         some "Must be a valid email format"
       else none) := rfl

/-- C3: both validators reject an email iff its trimmed, lowercased form
fails the documented pattern (non-empty local part of
letters/digits/`._%+-`, an `@`, a domain with at least one dot, a TLD of
at least two letters); `a@b.co` is accepted while `a@b` and `@b.com` are
rejected. -/
theorem email_validation_iff :
    (∀ (d : AuthData) (b : Bool),
        (validate_auth_data d b).email = none ↔
          SpecEmailOk (pyLower (pyStrip (d.email.getD ""))).toList) ∧
    (∀ d : RegData,
        (validate_registration_data d).email = none ↔
          SpecEmailOk (pyLower (pyStrip (d.email.getD ""))).toList) ∧
    matchesEmailPattern "a@b.co" = true ∧
    matchesEmailPattern "a@b" = false ∧
    matchesEmailPattern "@b.com" = false ∧
    (validate_auth_data ⟨some "N", some "a@b.co", some "secret"⟩ true).email = none ∧
    (validate_auth_data ⟨some "N", some "a@b", some "secret"⟩ true).email
      = some "Must be a valid email format" ∧
    (validate_auth_data ⟨some "N", some "@b.com", some "secret"⟩ true).email
      = some "Must be a valid email format" := by
  refine ⟨?_, ?_, by decide, by decide, by decide, by decide, by decide, by decide⟩
  · intro d b
    rw [authEmailErr_eq]
    exact emailErr_none_iff _
  · intro d
    rw [regEmailErr_eq]
    exact emailErr_none_iff _

/-! ## C1, C8: the auth middleware -/

/-- C1 counterexample: a request with header `Authorization: Basic <token>`
carrying a validly signed, unexpired token is not rejected with a 401 —
the middleware never inspects the scheme word, resolves the subject and
invokes the wrapped handler with the resolved user. -/
theorem basic_scheme_reaches_handler :
    auth_middleware [⟨"id1", some "Al", none, "a@b.co", none, "h"⟩]
        (some [.raw "Basic", .tok (issueToken "id1" "a@b.co" "sec" 0)]) "sec" 5
        (fun u => u.oid)
      = .response "id1" := by decide

/-- C1 amended: the middleware takes `split(" ")[1]` as the token and never
checks the scheme word: a two-word header behaves exactly as the same
header with scheme `Bearer` (so `Basic <valid token>` authenticates),
while a single-word non-empty header fails 401 `Invalid token format`
(the `IndexError` path). -/
theorem auth_header_scheme_ignored (α : Type) :
    (∀ (users : List UserDoc) (scheme : String) (w : HeaderWord) (secret : String)
        (now : Nat) (handler : UserDoc → α),
        auth_middleware users (some [.raw scheme, w]) secret now handler =
          auth_middleware users (some [.raw "Bearer", w]) secret now handler) ∧
    (∀ (users : List UserDoc) (s : String) (secret : String) (now : Nat)
        (handler : UserDoc → α),
        s ≠ "" →
        auth_middleware users (some [.raw s]) secret now handler =
          .error "Invalid token format" 401) := by
  constructor
  · intro users scheme w secret now handler
    unfold auth_middleware
    dsimp only
    rw [if_neg (show ¬([HeaderWord.raw scheme, w] = [HeaderWord.raw ""]) by simp),
      if_neg (show ¬([HeaderWord.raw "Bearer", w] = [HeaderWord.raw ""]) by simp)]
    rfl
  · intro users s secret now handler hs
    unfold auth_middleware
    dsimp only
    rw [if_neg (show ¬([HeaderWord.raw s] = [HeaderWord.raw ""]) by simp [hs])]
    rfl

theorem auth_header_scheme_ignored_witness :
    ("Basic" : String) ≠ "" ∧
    auth_middleware [] (some [HeaderWord.raw "Basic"]) "sec" 0
        (fun u : UserDoc => u.oid)
      = .error "Invalid token format" 401 :=
  ⟨by decide,
   (auth_header_scheme_ignored String).2 [] "Basic" "sec" 0 (fun u => u.oid) (by decide)⟩

/-- C8: a well-formed, validly signed, unexpired token whose subject id
matches no stored user is rejected 401 `User not found` without invoking
the wrapped handler, and the five 401 rejection messages (missing header,
malformed header, invalid token, expired token, unknown user) are
pairwise distinct. -/
theorem deleted_user_rejected (α : Type) (users : List UserDoc)
    (secret uid em : String) (exp now : Nat) (handler : UserDoc → α)
    (hexp : now ≤ exp) (habsent : ∀ u ∈ users, u.oid ≠ uid) :
    auth_middleware users
        (some [.raw "Bearer", .tok (jwt_encode ⟨uid, em, exp⟩ secret)])
        secret now handler
      = .error "User not found" 401 ∧
    (["Token is missing", "Invalid token format", "Token is invalid",
      "Token has expired", "User not found"] : List String).Nodup := by
  refine ⟨?_, by decide⟩
  have hdec : decodeWord (.tok (jwt_encode ⟨uid, em, exp⟩ secret)) secret now
      = .ok ⟨uid, em, exp⟩ := by
    unfold decodeWord jwt_decode jwt_encode
    dsimp only
    rw [if_neg (by simp), if_neg (by omega)]
  have hfind : users.find? (fun u => u.oid = uid) = none := by
    rw [List.find?_eq_none]
    intro x hx
    simp only [decide_eq_true_eq]
    exact habsent x hx
  unfold auth_middleware
  dsimp only
  rw [if_neg (show ¬([HeaderWord.raw "Bearer",
      HeaderWord.tok (jwt_encode ⟨uid, em, exp⟩ secret)] = [HeaderWord.raw ""]) by simp)]
  dsimp only [List.get?, HeaderWord.truthy]
  rw [hdec]
  rw [if_neg (show ¬(¬true = true) by simp)]
  dsimp only
  rw [hfind]

theorem deleted_user_rejected_witness :
    ((0 : Nat) ≤ 10 ∧ ∀ u ∈ ([] : List UserDoc), u.oid ≠ "id9") ∧
    (auth_middleware [] (some [HeaderWord.raw "Bearer",
          HeaderWord.tok (jwt_encode ⟨"id9", "e", 10⟩ "sec")]) "sec" 0
        (fun u : UserDoc => u.oid)
      = .error "User not found" 401 ∧
     (["Token is missing", "Invalid token format", "Token is invalid",
       "Token has expired", "User not found"] : List String).Nodup) :=
  ⟨⟨by decide, by simp⟩,
   deleted_user_rejected String [] "sec" "id9" "e" 10 0 (fun u => u.oid)
     (by decide) (by simp)⟩

/-! ## C6: token lifecycle -/

/-- Inversion of a successful `register_jwt`: the issued token, the
inserted document, and the store state. -/
theorem register_jwt_created_inv
    (users : List UserDoc) (data : AuthData) (secret : String) (now : Nat)
    (newId : String) (tok : Jwt) (u : UserDoc) (users' : List UserDoc)
    (h : register_jwt users (some data) secret now newId = (.created tok u, users')) :
    tok = issueToken newId (pyLower (pyStrip (data.email.getD ""))) secret now ∧
    u = { oid := newId
          name := some (pyStrip (data.name.getD ""))
          fullName := none
          email := pyLower (pyStrip (data.email.getD ""))
          phone := none
          password := generate_password_hash (data.password.getD "") } ∧
    users' = users ++ [u] ∧
    (validate_auth_data data false).isEmpty = true ∧
    users.find? (fun v => v.email = pyLower (pyStrip (data.email.getD ""))) = none := by
  unfold register_jwt at h
  dsimp only at h
  by_cases hval : (validate_auth_data data false).isEmpty = true
  · rw [if_neg (by simp [hval])] at h
    cases hf : users.find? (fun v => v.email = pyLower (pyStrip (data.email.getD ""))) with
    | some w => rw [hf] at h; simp at h
    | none =>
        rw [hf] at h
        simp only [Prod.mk.injEq, RegisterJwtResp.created.injEq] at h
        obtain ⟨⟨h1, h2⟩, h3⟩ := h
        subst h2
        exact ⟨h1.symm, rfl, h3.symm, hval, rfl⟩
  · rw [if_pos (by simpa using hval)] at h
    simp at h

/-- Inversion of a successful `login_jwt`: the issued token carries the
stored user's id and email and expires 24 hours after issuance. -/
theorem login_jwt_token_inv
    (users : List UserDoc) (data : AuthData) (secret : String) (now : Nat)
    (tok : Jwt) (u : UserDoc)
    (h : login_jwt users (some data) secret now = .loggedIn tok u) :
    tok = issueToken u.oid u.email secret now := by
  unfold login_jwt at h
  dsimp only at h
  by_cases hval : (validate_auth_data data true).isEmpty = true
  · rw [if_neg (by simp [hval])] at h
    cases hf : users.find? (fun v => v.email = pyLower (pyStrip (data.email.getD ""))) with
    | none => rw [hf] at h; simp at h
    | some user =>
        rw [hf] at h
        dsimp only at h
        by_cases hpw : check_password_hash user.password (data.password.getD "") = true
        · rw [if_neg (by simp [hpw])] at h
          simp only [LoginResp.loggedIn.injEq] at h
          obtain ⟨h1, h2⟩ := h
          subst h2
          exact h1.symm
        · rw [if_pos (by simpa using hpw)] at h
          simp at h
  · rw [if_pos (by simpa using hval)] at h
    simp at h

/-- The middleware accepts a well-signed unexpired token and passes the
resolved user to the handler. -/
theorem auth_middleware_ok (α : Type) (users : List UserDoc) (p : TokenPayload)
    (secret : String) (now : Nat) (handler : UserDoc → α) (u : UserDoc)
    (hexp : ¬ p.exp < now)
    (hfind : users.find? (fun v => v.oid = p.user_id) = some u) :
    auth_middleware users (some [.raw "Bearer", .tok (jwt_encode p secret)])
        secret now handler
      = .response (handler u) := by
  unfold auth_middleware
  dsimp only
  rw [if_neg (by simp)]
  dsimp only [List.get?, HeaderWord.truthy]
  rw [if_neg (show ¬(¬true = true) by simp)]
  unfold decodeWord jwt_decode jwt_encode
  dsimp only
  rw [if_neg (by simp), if_neg hexp]
  dsimp only
  rw [hfind]

/-- The middleware rejects an expired token with 401 `Token has expired`. -/
theorem auth_middleware_expired (α : Type) (users : List UserDoc) (p : TokenPayload)
    (secret : String) (now : Nat) (handler : UserDoc → α)
    (hexp : p.exp < now) :
    auth_middleware users (some [.raw "Bearer", .tok (jwt_encode p secret)])
        secret now handler
      = .error "Token has expired" 401 := by
  unfold auth_middleware
  dsimp only
  rw [if_neg (by simp)]
  dsimp only [List.get?, HeaderWord.truthy]
  rw [if_neg (show ¬(¬true = true) by simp)]
  unfold decodeWord jwt_decode jwt_encode
  dsimp only
  rw [if_neg (by simp), if_pos hexp]

/-- C6: a token issued at registration (or login) encodes the subject id,
the email and an expiration exactly 24 hours after issuance, signed with
the process-wide secret; verification succeeds — resolving the same
subject — whenever the current time is at most issuance+24h, and fails
with the 401 `Token has expired` rejection whenever the current time
exceeds issuance+24h. -/
theorem token_lifecycle (α : Type)
    (users users2 users' : List UserDoc) (data : AuthData) (secret : String)
    (now : Nat) (newId : String) (tok : Jwt) (u u2 : UserDoc)
    (handler : UserDoc → α)
    (hreg : register_jwt users (some data) secret now newId = (.created tok u, users'))
    (hfind : users2.find? (fun v => v.oid = newId) = some u2) :
    tok = jwt_encode ⟨newId, pyLower (pyStrip (data.email.getD "")), now + 24 * 3600⟩ secret ∧
    (∀ now', now' ≤ now + 24 * 3600 → jwt_decode tok secret now' = .ok tok.payload) ∧
    (∀ now', now + 24 * 3600 < now' → jwt_decode tok secret now' = .expiredSignature) ∧
    (∀ now', now' ≤ now + 24 * 3600 →
        auth_middleware users2 (some [.raw "Bearer", .tok tok]) secret now' handler
          = .response (handler u2)) ∧
    (∀ now', now + 24 * 3600 < now' →
        auth_middleware users2 (some [.raw "Bearer", .tok tok]) secret now' handler
          = .error "Token has expired" 401) ∧
    (∀ (lusers : List UserDoc) (ldata : AuthData) (ltok : Jwt) (lu : UserDoc) (lnow : Nat),
        login_jwt lusers (some ldata) secret lnow = .loggedIn ltok lu →
        ltok = jwt_encode ⟨lu.oid, lu.email, lnow + 24 * 3600⟩ secret) := by
  obtain ⟨htok, hu, husers, hval, hf⟩ :=
    register_jwt_created_inv users data secret now newId tok u users' hreg
  subst htok
  refine ⟨rfl, ?_, ?_, ?_, ?_, ?_⟩
  · intro now' hle
    unfold jwt_decode issueToken jwt_encode
    dsimp only
    rw [if_neg (by simp), if_neg (by omega)]
  · intro now' hlt
    unfold jwt_decode issueToken jwt_encode
    dsimp only
    rw [if_neg (by simp), if_pos (by omega)]
  · intro now' hle
    exact auth_middleware_ok α users2 ⟨newId, pyLower (pyStrip (data.email.getD "")),
      now + 24 * 3600⟩ secret now' handler u2 (by dsimp only; omega) hfind
  · intro now' hlt
    exact auth_middleware_expired α users2 ⟨newId, pyLower (pyStrip (data.email.getD "")),
      now + 24 * 3600⟩ secret now' handler (by dsimp only; omega)
  · intro lusers ldata ltok lu lnow hl
    exact login_jwt_token_inv lusers ldata secret lnow ltok lu hl

theorem token_lifecycle_witness :
    (register_jwt [] (some ⟨some "Al", some "a@b.co", some "secret"⟩) "sec" 0 "id1"
        = (.created (jwt_encode ⟨"id1", "a@b.co", 86400⟩ "sec")
             ⟨"id1", some "Al", none, "a@b.co", none, "pbkdf2:secret"⟩,
           [⟨"id1", some "Al", none, "a@b.co", none, "pbkdf2:secret"⟩]) ∧
     ([(⟨"id1", some "Al", none, "a@b.co", none, "pbkdf2:secret"⟩ : UserDoc)].find?
          (fun v => v.oid = "id1")
        = some ⟨"id1", some "Al", none, "a@b.co", none, "pbkdf2:secret"⟩)) ∧
    jwt_encode ⟨"id1", "a@b.co", 86400⟩ "sec"
      = jwt_encode ⟨"id1", pyLower (pyStrip "a@b.co"), 0 + 24 * 3600⟩ "sec" :=
  ⟨⟨by decide, by decide⟩,
   (token_lifecycle String [] [⟨"id1", some "Al", none, "a@b.co", none, "pbkdf2:secret"⟩]
      [⟨"id1", some "Al", none, "a@b.co", none, "pbkdf2:secret"⟩]
      ⟨some "Al", some "a@b.co", some "secret"⟩ "sec" 0 "id1"
      (jwt_encode ⟨"id1", "a@b.co", 86400⟩ "sec")
      ⟨"id1", some "Al", none, "a@b.co", none, "pbkdf2:secret"⟩
      ⟨"id1", some "Al", none, "a@b.co", none, "pbkdf2:secret"⟩
      (fun v => v.oid) (by decide) (by decide)).1⟩

/-! ## C7: duplicate normalized email -/

/-- Inversion of a successful legacy `register_user`: the inserted
document carries the normalized email and is appended to the store. -/
theorem register_user_created_inv
    (users : List UserDoc) (data : RegData) (newId : String)
    (u : UserDoc) (users' : List UserDoc)
    (h : register_user users (some data) newId = (.created u, users')) :
    u.email = pyLower (pyStrip (data.email.getD "")) ∧ users' = users ++ [u] := by
  unfold register_user at h
  dsimp only at h
  by_cases hval : (validate_registration_data data).isEmpty = true
  · rw [if_neg (by simp [hval])] at h
    cases hf : users.find? (fun v => v.email = pyLower (pyStrip (data.email.getD ""))) with
    | some w => rw [hf] at h; simp at h
    | none =>
        rw [hf] at h
        simp only [Prod.mk.injEq, RegisterUserResp.created.injEq] at h
        obtain ⟨h1, h2⟩ := h
        subst h1
        exact ⟨rfl, h2.symm⟩
  · rw [if_pos (by simpa using hval)] at h
    simp at h

/-- `register_jwt` answers `Email already registered` (400, email-scoped)
and leaves the store unchanged when a stored user carries the normalized
email. -/
theorem register_jwt_conflict
    (users : List UserDoc) (data : AuthData) (secret : String) (now : Nat)
    (newId : String)
    (hval : (validate_auth_data data false).isEmpty = true)
    (hdup : ∃ v ∈ users, v.email = pyLower (pyStrip (data.email.getD ""))) :
    register_jwt users (some data) secret now newId = (.emailTaken, users) := by
  unfold register_jwt
  dsimp only
  rw [if_neg (by simp [hval])]
  obtain ⟨v, hv, hve⟩ := hdup
  have hsome : (users.find? (fun u => u.email = pyLower (pyStrip (data.email.getD "")))).isSome := by
    rw [List.find?_isSome]
    exact ⟨v, hv, by simp [hve]⟩
  cases hfind : users.find? (fun u => u.email = pyLower (pyStrip (data.email.getD ""))) with
  | none => rw [hfind] at hsome; simp at hsome
  | some w => rfl

/-- The legacy `register_user` answers the same conflict. -/
theorem register_user_conflict
    (users : List UserDoc) (data : RegData) (newId : String)
    (hval : (validate_registration_data data).isEmpty = true)
    (hdup : ∃ v ∈ users, v.email = pyLower (pyStrip (data.email.getD ""))) :
    register_user users (some data) newId = (.emailTaken, users) := by
  unfold register_user
  dsimp only
  rw [if_neg (by simp [hval])]
  obtain ⟨v, hv, hve⟩ := hdup
  have hsome : (users.find? (fun u => u.email = pyLower (pyStrip (data.email.getD "")))).isSome := by
    rw [List.find?_isSome]
    exact ⟨v, hv, by simp [hve]⟩
  cases hfind : users.find? (fun u => u.email = pyLower (pyStrip (data.email.getD ""))) with
  | none => rw [hfind] at hsome; simp at hsome
  | some w => rfl

/-- C7: after a successful registration, a second registration — through
either surface — whose email equals the first one after trimming and
lowercasing, and which passes its own field validation, fails with the
field-scoped `Email already registered` conflict (400) and inserts no new
user, regardless of the casing of either email. -/
theorem duplicate_email_conflict :
    (∀ (users users' : List UserDoc) (d1 : AuthData) (secret : String)
        (now now2 : Nat) (id1 id2 : String) (tok : Jwt) (u : UserDoc),
        register_jwt users (some d1) secret now id1 = (.created tok u, users') →
        (∀ d2 : AuthData, (validate_auth_data d2 false).isEmpty = true →
            pyLower (pyStrip (d2.email.getD "")) = pyLower (pyStrip (d1.email.getD "")) →
            register_jwt users' (some d2) secret now2 id2 = (.emailTaken, users')) ∧
        (∀ d2 : RegData, (validate_registration_data d2).isEmpty = true →
            pyLower (pyStrip (d2.email.getD "")) = pyLower (pyStrip (d1.email.getD "")) →
            register_user users' (some d2) id2 = (.emailTaken, users'))) ∧
    (∀ (users users' : List UserDoc) (d1 : RegData) (secret : String)
        (now2 : Nat) (id1 id2 : String) (u : UserDoc),
        register_user users (some d1) id1 = (.created u, users') →
        (∀ d2 : AuthData, (validate_auth_data d2 false).isEmpty = true →
            pyLower (pyStrip (d2.email.getD "")) = pyLower (pyStrip (d1.email.getD "")) →
            register_jwt users' (some d2) secret now2 id2 = (.emailTaken, users')) ∧
        (∀ d2 : RegData, (validate_registration_data d2).isEmpty = true →
            pyLower (pyStrip (d2.email.getD "")) = pyLower (pyStrip (d1.email.getD "")) →
            register_user users' (some d2) id2 = (.emailTaken, users'))) := by
  constructor
  · intro users users' d1 secret now now2 id1 id2 tok u hreg
    obtain ⟨_, hu, husers, _, _⟩ :=
      register_jwt_created_inv users d1 secret now id1 tok u users' hreg
    have hmem : u ∈ users' := by rw [husers]; simp
    have hue : u.email = pyLower (pyStrip (d1.email.getD "")) := by rw [hu]
    constructor
    · intro d2 hval2 hnorm
      exact register_jwt_conflict users' d2 secret now2 id2 hval2
        ⟨u, hmem, by rw [hue, hnorm]⟩
    · intro d2 hval2 hnorm
      exact register_user_conflict users' d2 id2 hval2 ⟨u, hmem, by rw [hue, hnorm]⟩
  · intro users users' d1 secret now2 id1 id2 u hreg
    obtain ⟨hue, husers⟩ := register_user_created_inv users d1 id1 u users' hreg
    have hmem : u ∈ users' := by rw [husers]; simp
    constructor
    · intro d2 hval2 hnorm
      exact register_jwt_conflict users' d2 secret now2 id2 hval2
        ⟨u, hmem, by rw [hue, hnorm]⟩
    · intro d2 hval2 hnorm
      exact register_user_conflict users' d2 id2 hval2 ⟨u, hmem, by rw [hue, hnorm]⟩

theorem duplicate_email_conflict_witness :
    (register_jwt [] (some ⟨some "Al", some "User@X.com", some "secret"⟩) "sec" 0 "id1"
        = (.created (jwt_encode ⟨"id1", "user@x.com", 86400⟩ "sec")
             ⟨"id1", some "Al", none, "user@x.com", none, "pbkdf2:secret"⟩,
           [⟨"id1", some "Al", none, "user@x.com", none, "pbkdf2:secret"⟩])) ∧
    register_jwt [⟨"id1", some "Al", none, "user@x.com", none, "pbkdf2:secret"⟩]
        (some ⟨some "Bo", some "user@x.com", some "secret2"⟩) "sec" 5 "id2"
      = (.emailTaken, [⟨"id1", some "Al", none, "user@x.com", none, "pbkdf2:secret"⟩]) :=
  ⟨by decide,
   (duplicate_email_conflict.1 [] [⟨"id1", some "Al", none, "user@x.com", none, "pbkdf2:secret"⟩]
       ⟨some "Al", some "User@X.com", some "secret"⟩ "sec" 0 5 "id1" "id2"
       (jwt_encode ⟨"id1", "user@x.com", 86400⟩ "sec")
       ⟨"id1", some "Al", none, "user@x.com", none, "pbkdf2:secret"⟩ (by decide)).1
     ⟨some "Bo", some "user@x.com", some "secret2"⟩ (by decide) (by decide)⟩

/-! ## C5: price positivity -/

/-- Main case analysis of `create_product` on a present body: either some
field error is reported and nothing is persisted, or the parsed price is
positive and exactly the new document is appended. -/
theorem create_product_main (store : List Product) (cu : UserDoc)
    (data : ProductInput) (uuid : String) (now : Nat) :
    (∃ e, create_product store cu (some data) uuid now = (.validationFailed e, store)) ∨
    (∃ q, pyFloat? (data.price.getD (.num 0)) = some q ∧ 0 < q ∧
        create_product store cu (some data) uuid now
          = (.created { id := uuid
                        title := pyStrip (data.title.getD "")
                        description := pyStrip (data.description.getD "")
                        price := q
                        image := data.image.getD "https://via.placeholder.com/300x200"
                        createdBy := cu.oid
                        createdAt := now
                        updatedAt := none },
              store ++ [{ id := uuid
                          title := pyStrip (data.title.getD "")
                          description := pyStrip (data.description.getD "")
                          price := q
                          image := data.image.getD "https://via.placeholder.com/300x200"
                          createdBy := cu.oid
                          createdAt := now
                          updatedAt := none }])) := by
  unfold create_product
  dsimp only
  cases hpf : pyFloat? (data.price.getD (.num 0)) with
  | none =>
      left
      exact ⟨_, by rw [if_pos (by simp [Option.orElse])]⟩
  | some q =>
      by_cases hq : q ≤ 0
      · left
        exact ⟨_, by rw [if_pos (by simp [Option.orElse, hq])]⟩
      · by_cases ht : strTruthy data.title = true
        · by_cases hd : strTruthy data.description = true
          · by_cases hr : (data.price.map PriceVal.truthy).getD false = true
            · right
              refine ⟨q, rfl, lt_of_not_le hq, ?_⟩
              rw [if_neg (by simp [Option.orElse, ht, hd, hr, hq])]
            · left
              exact ⟨_, by rw [if_pos (by simp [Option.orElse, ht, hd, hr, hq])]⟩
          · left
            exact ⟨_, by rw [if_pos (by simp [Option.orElse, hd])]⟩
        · left
          exact ⟨_, by rw [if_pos (by simp [Option.orElse, ht])]⟩

theorem mem_updateFirst (store : List Product) (pid : String) (p' q : Product)
    (hq : q ∈ updateFirst store pid p') : q ∈ store ∨ q = p' := by
  induction store with
  | nil => simp [updateFirst] at hq
  | cons a rest ih =>
      unfold updateFirst at hq
      by_cases ha : a.id = pid
      · rw [if_pos ha] at hq
        rcases List.mem_cons.mp hq with h | h
        · right; exact h
        · left; exact List.mem_cons_of_mem _ h
      · rw [if_neg ha] at hq
        rcases List.mem_cons.mp hq with h | h
        · left; exact h ▸ List.mem_cons_self _ _
        · rcases ih h with h' | h'
          · left; exact List.mem_cons_of_mem _ h'
          · right; exact h'

/-- A rejected price (unparseable or non-positive) makes `update_product`
return before writing: the store is unchanged and the response is not a
success. -/
theorem update_product_bad_price (store : List Product) (pid : String)
    (data : ProductInput) (now : Nat) (v : PriceVal)
    (hv : data.price = some v)
    (hbad : pyFloat? v = none ∨ ∃ q, pyFloat? v = some q ∧ q ≤ 0) :
    (update_product store pid (some data) now).2 = store ∧
    ∀ p, (update_product store pid (some data) now).1 ≠ .updated p := by
  unfold update_product
  dsimp only
  cases hf : store.find? (fun p => p.id = pid) with
  | none => exact ⟨rfl, by simp⟩
  | some product =>
      rw [hv]
      dsimp only
      rcases hbad with hn | ⟨q, hq, hle⟩
      · rw [hn]
        exact ⟨rfl, by simp⟩
      · rw [hq]
        dsimp only
        rw [if_pos hle]
        exact ⟨rfl, by simp⟩

/-- `update_product` preserves store-wide price positivity. -/
theorem update_product_preserves_positive (store : List Product) (pid : String)
    (din : Option ProductInput) (now : Nat)
    (hstore : ∀ q ∈ store, 0 < q.price) :
    ∀ q ∈ (update_product store pid din now).2, 0 < q.price := by
  unfold update_product
  match din with
  | none => exact hstore
  | some data =>
      dsimp only
      cases hf : store.find? (fun p => p.id = pid) with
      | none => exact hstore
      | some product =>
          have hprod : 0 < product.price :=
            hstore product (List.mem_of_find?_eq_some hf)
          dsimp only
          cases hp : data.price with
          | none =>
              dsimp only
              intro q hq
              rcases mem_updateFirst store pid _ q hq with h | h
              · exact hstore q h
              · rw [h]; exact hprod
          | some v =>
              dsimp only
              cases hpf : pyFloat? v with
              | none => exact hstore
              | some qq =>
                  dsimp only
                  by_cases hle : qq ≤ 0
                  · rw [if_pos hle]; exact hstore
                  · rw [if_neg hle]
                    dsimp only
                    intro q hq
                    rcases mem_updateFirst store pid _ q hq with h | h
                    · exact hstore q h
                    · rw [h]; exact lt_of_not_le hle

/-- C5: every product that reaches the store has a positive price:
creation persists exactly one new document whose price is positive and
persists nothing on any validation failure; an update whose price is
non-positive or unparseable rejects with 400 before writing; both
operations preserve store-wide positivity; `9.99` persists as the
positive value `999/100`, while `-5` and `"abc"` fail validation. -/
theorem product_price_positive :
    (∀ (store : List Product) (cu : UserDoc) (din : Option ProductInput)
        (uuid : String) (now : Nat) (p : Product) (store' : List Product),
        create_product store cu din uuid now = (.created p, store') →
        0 < p.price ∧ store' = store ++ [p]) ∧
    (∀ (store : List Product) (cu : UserDoc) (din : Option ProductInput)
        (uuid : String) (now : Nat),
        (∀ p, (create_product store cu din uuid now).1 ≠ .created p) →
        (create_product store cu din uuid now).2 = store) ∧
    (∀ (store : List Product) (pid : String) (data : ProductInput) (now : Nat)
        (v : PriceVal),
        data.price = some v →
        (pyFloat? v = none ∨ ∃ q, pyFloat? v = some q ∧ q ≤ 0) →
        (update_product store pid (some data) now).2 = store ∧
        ∀ p, (update_product store pid (some data) now).1 ≠ .updated p) ∧
    (∀ (store : List Product) (pid : String) (din : Option ProductInput) (now : Nat)
        (cu : UserDoc) (uuid : String),
        (∀ q ∈ store, 0 < q.price) →
        (∀ q ∈ (update_product store pid din now).2, 0 < q.price) ∧
        (∀ q ∈ (create_product store cu din uuid now).2, 0 < q.price)) ∧
    create_product [] ⟨"u1", none, none, "e", none, "h"⟩
        (some ⟨some "T", some "D", some (.num (mkRat 999 100)), none⟩) "uu" 0
      = (.created ⟨"uu", "T", "D", mkRat 999 100,
            "https://via.placeholder.com/300x200", "u1", 0, none⟩,
         [⟨"uu", "T", "D", mkRat 999 100,
            "https://via.placeholder.com/300x200", "u1", 0, none⟩]) ∧
    (0 : ℚ) < mkRat 999 100 ∧
    (create_product [] ⟨"u1", none, none, "e", none, "h"⟩
        (some ⟨some "T", some "D", some (.num (-5 : ℚ)), none⟩) "uu" 0)
      = (.validationFailed ⟨none, none, some "Price must be a positive number"⟩, []) ∧
    (create_product [] ⟨"u1", none, none, "e", none, "h"⟩
        (some ⟨some "T", some "D", some (.str "abc"), none⟩) "uu" 0)
      = (.validationFailed ⟨none, none, some "Price must be a valid number"⟩, []) := by
  refine ⟨?_, ?_, ?_, ?_, by decide, by decide, by decide, by decide⟩
  · intro store cu din uuid now p store' h
    match din with
    | none => simp [create_product] at h
    | some data =>
        rcases create_product_main store cu data uuid now with ⟨e, he⟩ | ⟨q, _, hq, he⟩
        · rw [he] at h; simp at h
        · rw [he] at h
          simp only [Prod.mk.injEq, CreateResp.created.injEq] at h
          obtain ⟨h1, h2⟩ := h
          subst h1
          exact ⟨hq, h2.symm⟩
  · intro store cu din uuid now h
    match din with
    | none => rfl
    | some data =>
        rcases create_product_main store cu data uuid now with ⟨e, he⟩ | ⟨q, _, _, he⟩
        · rw [he]
        · exact absurd (congrArg Prod.fst he) (h _)
  · intro store pid data now v hv hbad
    exact update_product_bad_price store pid data now v hv hbad
  · intro store pid din now cu uuid hstore
    refine ⟨update_product_preserves_positive store pid din now hstore, ?_⟩
    match din with
    | none =>
        intro q hq
        exact hstore q hq
    | some data =>
        rcases create_product_main store cu data uuid now with ⟨e, he⟩ | ⟨qq, _, hpos, he⟩
        · rw [he]; exact hstore
        · rw [he]
          intro r hr
          rcases List.mem_append.mp hr with h | h
          · exact hstore r h
          · rw [List.mem_singleton.mp h]
            exact hpos

theorem product_price_positive_witness :
    ((⟨some "T", some "D", some (.num (999/100 : ℚ)), none⟩ : ProductInput).price
        = some (.num (999/100 : ℚ)) ∧
     (pyFloat? (.num (-5 : ℚ)) = none ∨
        ∃ q, pyFloat? (.num (-5 : ℚ)) = some q ∧ q ≤ 0)) ∧
    ((update_product [] "nope"
        (some ⟨some "T", some "D", some (.num (-5 : ℚ)), none⟩) 0).2 = [] ∧
     ∀ p, (update_product [] "nope"
        (some ⟨some "T", some "D", some (.num (-5 : ℚ)), none⟩) 0).1 ≠ .updated p) :=
  ⟨⟨rfl, Or.inr ⟨-5, rfl, by decide⟩⟩,
   product_price_positive.2.2.1 [] "nope"
     ⟨some "T", some "D", some (.num (-5 : ℚ)), none⟩ 0 (.num (-5 : ℚ)) rfl
     (Or.inr ⟨-5, rfl, by decide⟩)⟩

/-! ## C9: pagination -/

/-- `(N + L - 1) / L` is the ceiling of `N / L`: the least `k` with
`N ≤ k · L`. -/
theorem ceil_div_spec (N L : Nat) (hL : 1 ≤ L) :
    N ≤ ((N + L - 1) / L) * L ∧ ∀ k, N ≤ k * L → (N + L - 1) / L ≤ k := by
  constructor
  · have h1 : L * ((N + L - 1) / L) + (N + L - 1) % L = N + L - 1 :=
      Nat.div_add_mod _ _
    have h2 : (N + L - 1) % L < L := Nat.mod_lt _ (by omega)
    have key : ∀ a r, a + r = N + L - 1 → r < L → N ≤ a := by
      intro a r ha hr; omega
    calc N ≤ L * ((N + L - 1) / L) := key _ _ h1 h2
    _ = ((N + L - 1) / L) * L := Nat.mul_comm _ _
  · intro k hk
    by_contra hlt
    push_neg at hlt
    have h3 : (k + 1) * L ≤ N + L - 1 := (Nat.le_div_iff_mul_le (by omega)).mp hlt
    rw [Nat.succ_mul] at h3
    have key : ∀ a, a + L ≤ N + L - 1 → N ≤ a → False := by
      intro a ha hb; omega
    exact key (k * L) h3 hk

/-- C9: over `N` matching items with page `p ≥ 1` and limit `L ∈ [1,100]`,
the listing returns `min L (N - (p-1)·L)` items, `totalPages` is the
ceiling of `N/L` (the least `k` with `N ≤ k·L`), `hasNext` holds iff
`p < totalPages`, and `hasPrev` iff `p > 1`. -/
theorem get_products_pagination (store : List Product) (kf : Product → Bool)
    (cmp : Product → Product → Bool) (p L : Int)
    (hp : 1 ≤ p) (hL1 : 1 ≤ L) (hL2 : L ≤ 100) :
    ((get_products store p L kf cmp).1.length
        = min L.toNat ((store.filter kf).length - (p.toNat - 1) * L.toNat)) ∧
    ((store.filter kf).length
        ≤ (get_products store p L kf cmp).2.totalPages * L.toNat ∧
     ∀ k, (store.filter kf).length ≤ k * L.toNat →
        (get_products store p L kf cmp).2.totalPages ≤ k) ∧
    ((get_products store p L kf cmp).2.hasNext = true ↔
        (get_products store p L kf cmp).2.currentPage
          < (get_products store p L kf cmp).2.totalPages) ∧
    ((get_products store p L kf cmp).2.hasPrev = true ↔
        1 < (get_products store p L kf cmp).2.currentPage) ∧
    (get_products store p L kf cmp).2.currentPage = p.toNat ∧
    (get_products store p L kf cmp).2.itemsPerPage = L.toNat ∧
    (get_products store p L kf cmp).2.totalItems = (store.filter kf).length := by
  unfold get_products
  rw [if_neg (by omega), if_neg (by
    simp only [Bool.or_eq_true, decide_eq_true_eq]
    omega)]
  dsimp only
  refine ⟨?_, ⟨?_, ?_⟩, by simp, by simp, rfl, rfl, rfl⟩
  · rw [List.length_take, List.length_drop, List.length_mergeSort]
  · exact (ceil_div_spec (store.filter kf).length L.toNat (by omega)).1
  · exact (ceil_div_spec (store.filter kf).length L.toNat (by omega)).2

theorem get_products_pagination_witness :
    ((1 : Int) ≤ 2 ∧ (1 : Int) ≤ 5 ∧ (5 : Int) ≤ 100) ∧
    (get_products (List.replicate 12 ⟨"x", "t", "d", 1, "i", "u", 0, none⟩) 2 5
        (fun _ => true) (fun _ _ => true)).1.length = 5 ∧
    (get_products (List.replicate 12 ⟨"x", "t", "d", 1, "i", "u", 0, none⟩) 2 5
        (fun _ => true) (fun _ _ => true)).2
      = ⟨2, 3, 12, 5, true, true⟩ :=
  ⟨⟨by decide, by decide, by decide⟩,
   by
     have h := get_products_pagination
       (List.replicate 12 ⟨"x", "t", "d", 1, "i", "u", 0, none⟩)
       (fun _ => true) (fun _ _ => true) 2 5 (by decide) (by decide) (by decide)
     exact h.1.trans (by decide),
   by decide⟩

end Tutorial7
